import Mathlib

/-
Verification development for the pairpad client synchronization engine
(src/client/engine.go).  The engine file is the authority for the local
edit path (performOperation), the message handler (handleMsg) and the
save/load key handler (handleTermboxEvent).  The crdt package and the
editor package are not part of the sources; where their behavior decides
a claim they are modelled from the specification (spec.md), and each such
definition carries a doc comment starting with "Modelled from the spec:".
-/

namespace Pairpad

/-- Modelled from the spec: an Identifier is an ordered sequence of
(digit, site) pairs, compared lexicographically pair-by-pair (spec section 3).
The crdt package is not under the sources. -/
abbrev Identifier := List (Int × Int)

/-- Modelled from the spec: a Character Node carries an identifier, a value,
the originating site, a per-site counter, and a tombstone flag (spec
section 3).  The spec gives the value as a rune; the wire operations in
src/client/engine.go carry string values, so the value is modelled as a
String (the local path always passes a single-character string). -/
structure CharacterNode where
  identifier : Identifier
  value : String
  site : Int
  counter : Int
  tombstoned : Bool
deriving DecidableEq

/-- Modelled from the spec: the Document is an ordered sequence of Character
Nodes; the begin/end sentinels of spec section 3 are kept implicit and only
their identifiers (beginId, endId) are used as bounds for identifier
generation. -/
abbrev Document := List CharacterNode

/-- Digit bound for identifier generation (the spec fixes no base; any
integer at least 2 works). -/
def base : Int := 32

/-- Identifier of the implicit begin sentinel. -/
def beginId : Identifier := [(0, 0)]

/-- Identifier of the implicit end sentinel. -/
def endId : Identifier := [(base, 0)]

/-- Modelled from the spec: helper of the identifier generator producing an
identifier strictly greater than its argument, with no upper bound at the
current depth (used when the two inputs are adjacent at a depth, spec
section 4.1). -/
def genAfter (site : Int) : Identifier → Identifier
  | [] => [(1, site)]
  | (d, s) :: t => if d + 1 < base then [(d + 1, site)] else (d, s) :: genAfter site t

/-- Modelled from the spec: the identifier generator's between operation
(spec section 4.1): walk the two identifiers pair-by-pair; at the first
depth with an integer gap of at least 2, pick a digit inside the gap tagged
with the inserting site; otherwise extend to a deeper level. -/
def between (site : Int) : Identifier → Identifier → Identifier
  | [], [] => [(1, site)]
  | [], (d2, _) :: _ => if 1 < d2 then [(1, site)] else [(0, site)]
  | p :: t, [] => genAfter site (p :: t)
  | (d1, s1) :: t1, (d2, s2) :: t2 =>
      if d1 + 1 < d2 then [(d1 + 1, site)]
      else if d1 = d2 ∧ s1 = s2 then (d1, s1) :: between site t1 t2
      else (d1, s1) :: genAfter site t1

/-- Modelled from the spec: Content() concatenates the values of the
non-tombstoned nodes in sequence order (spec section 4.2). -/
def content (d : Document) : String :=
  String.join ((d.filter fun n => !n.tombstoned).map fun n => n.value)

/-- Modelled from the spec: the visible length is the number of
non-tombstoned nodes. -/
def visibleLength (d : Document) : Nat :=
  (d.filter fun n => !n.tombstoned).length

/-- Splits the node list so that the first component contains exactly the
first i visible nodes (with any tombstones interleaved before them); a new
node inserted at the split point receives visible index i. -/
def splitAtVisible : Document → Nat → Document × Document
  | d, 0 => ([], d)
  | [], _ => ([], [])
  | n :: t, i + 1 =>
      if n.tombstoned then
        let p := splitAtVisible t (i + 1)
        (n :: p.1, p.2)
      else
        let p := splitAtVisible t i
        (n :: p.1, p.2)

/-- Identifier of the visible node immediately before the split point (the
begin sentinel's identifier at the left edge). -/
def lastVisibleId (pre : Document) : Identifier :=
  match (pre.filter fun n => !n.tombstoned).getLast? with
  | some n => n.identifier
  | none => beginId

/-- Identifier of the visible node immediately after the split point (the
end sentinel's identifier at the right edge). -/
def firstVisibleId (suf : Document) : Identifier :=
  match suf.find? (fun n => !n.tombstoned) with
  | some n => n.identifier
  | none => endId

/-- Document errors of the spec's error taxonomy that the local edit path
can produce (spec section 7). -/
inductive DocError
  | indexOutOfRange
deriving DecidableEq

/-- Modelled from the spec: LocalInsert (spec section 4.2) with visible
index i, requiring 0 <= i <= visibleLength; finds the visible neighbors,
generates an identifier between theirs, and inserts the new node.  The
spec also returns an OperationRecord, which the engine under the sources
ignores: src/client/engine.go builds its own index-based wire message
instead, so the record is not modelled here. -/
def localInsert (d : Document) (i : Int) (v : String) (site counter : Int) :
    Except DocError Document :=
  if 0 ≤ i ∧ i ≤ (visibleLength d : Int) then
    let p := splitAtVisible d i.toNat
    Except.ok (p.1 ++ ⟨between site (lastVisibleId p.1) (firstVisibleId p.2), v, site, counter, false⟩ :: p.2)
  else
    Except.error DocError.indexOutOfRange

/-- Marks the i-th visible node tombstoned. -/
def tombstoneAtVisible : Document → Nat → Document
  | [], _ => []
  | n :: t, i =>
      if n.tombstoned then n :: tombstoneAtVisible t i
      else
        match i with
        | 0 => { n with tombstoned := true } :: t
        | j + 1 => n :: tombstoneAtVisible t j

/-- Modelled from the spec: LocalDelete (spec section 4.2) with visible
index i, requiring 0 <= i < visibleLength; marks the node tombstoned and
fails with IndexOutOfRange otherwise, without mutating state. -/
def localDelete (d : Document) (i : Int) : Except DocError Document :=
  if 0 ≤ i ∧ i < (visibleLength d : Int) then
    Except.ok (tombstoneAtVisible d i.toNat)
  else
    Except.error DocError.indexOutOfRange

/-- Wire operation of the commons package as used by src/client/engine.go:
a kind string, a plain integer position, and a string value (Go zero
values for the fields the sender leaves unset).  Note that it carries no
identifier, site, or counter. -/
structure Operation where
  opType : String
  position : Int
  value : String
deriving DecidableEq

/-- Message kinds the client handles in handleMsg; the commons package
constants are distinct strings, modelled as an enumeration, with the
operation kind standing for the default branch of the outer switch. -/
inductive MsgType
  | docSync
  | docReq
  | siteIDAssign
  | join
  | users
  | operation
deriving DecidableEq

/-- Wire message of the commons package, with Go zero values as field
defaults for the parts a given sender leaves unset. -/
structure Message where
  msgType : MsgType
  operation : Operation := ⟨"", 0, ""⟩
  document : Document := []
  text : String := ""
  username : String := ""
deriving DecidableEq

/-- State of one client replica: the shared document and counters of the
crdt package (doc, localCounter, siteID) and the editor state read and
written by engine.go (cursor, text, isConnected); outbox records the
messages written to the websocket connection and statusMsgs the strings
sent to the status channel. -/
structure ClientState where
  doc : Document
  siteID : Int
  localCounter : Int
  cursor : Int
  text : String
  isConnected : Bool
  outbox : List Message
  statusMsgs : List String
  users : List String
deriving DecidableEq

/-- A fresh replica: empty document, cursor at 0, connected. -/
def initState (site : Int) : ClientState :=
  { doc := [], siteID := site, localCounter := 0, cursor := 0, text := "",
    isConnected := true, outbox := [], statusMsgs := [], users := [] }

/-- Clamp a cursor into the range 0 .. len. -/
def clampCursor (c : Int) (len : Nat) : Int :=
  if c < 0 then 0 else if c > (len : Int) then (len : Int) else c

/-- The editor's SetText: replaces the displayed text. -/
def setText (st : ClientState) (s : String) : ClientState :=
  { st with text := s }

/-- Modelled from the spec: the editor package's MoveCursor is not under
the sources and the spec leaves the editor out of scope; it is modelled as
horizontal movement clamped into the current text bounds. -/
def moveCursor (st : ClientState) (dx : Int) : ClientState :=
  { st with cursor := clampCursor (st.cursor + dx) st.text.length }

/-- WriteJSON on the connection, guarded by e.IsConnected as in
performOperation; the transport is modelled as reliable, so the write
error branch that clears IsConnected is not exercised. -/
def send (st : ClientState) (m : Message) : ClientState :=
  if st.isConnected then { st with outbox := st.outbox ++ [m] } else st

/-- The crdt Document.Insert the engine calls: positions at the call sites
are one-based (the engine passes e.Cursor+1 so that typing at cursor 0
lands at visible index 0), so position pos maps to visible index pos - 1.
Modelled from the spec: on success the per-site counter advances; on
IndexOutOfRange nothing is mutated and the current content is returned
alongside the error. -/
def docInsert (st : ClientState) (pos : Int) (v : String) :
    ClientState × String × Option DocError :=
  match localInsert st.doc (pos - 1) v st.siteID st.localCounter with
  | Except.ok d' => ({ st with doc := d', localCounter := st.localCounter + 1 }, content d', none)
  | Except.error e => (st, content st.doc, some e)

/-- The crdt Document.Delete the engine calls: it returns only the updated
content (no error, matching the call site text := doc.Delete(e.Cursor)),
with one-based position pos mapping to visible index pos - 1; an
out-of-range position leaves the document unchanged. -/
def docDelete (d : Document) (pos : Int) : Document × String :=
  match localDelete d (pos - 1) with
  | Except.ok d' => (d', content d')
  | Except.error _ => (d, content d)

/-- The insert branch of performOperation before the send: doc.Insert at
e.Cursor+1, SetText with the returned text (done on the error path too,
with the same effect), then MoveCursor(1, 0). -/
def performInsertCore (st : ClientState) (ch : Char) : ClientState :=
  let r := docInsert st (st.cursor + 1) (String.mk [ch])
  let st2 := setText r.1 r.2.1
  moveCursor st2 1

/-- The operation message the insert branch builds: Position is e.Cursor
read after the MoveCursor(1, 0), Value is the typed character. -/
def insertMsgOf (st : ClientState) (ch : Char) : Message :=
  { msgType := MsgType.operation,
    operation := ⟨"insert", (performInsertCore st ch).cursor, String.mk [ch]⟩ }

/-- performOperation with OperationInsert: mutate the local state, then
send the message when connected. -/
def performInsert (st : ClientState) (ch : Char) : ClientState :=
  send (performInsertCore st ch) (insertMsgOf st ch)

/-- The delete branch's cursor clamp: if e.Cursor-1 < 0 then e.Cursor = 0. -/
def deleteClampedCursor (st : ClientState) : Int :=
  if st.cursor - 1 < 0 then 0 else st.cursor

/-- The operation message the delete branch builds: Position is e.Cursor
after the clamp, and the Value field is left at its zero value "". -/
def deleteMsgOf (st : ClientState) : Message :=
  { msgType := MsgType.operation,
    operation := ⟨"delete", deleteClampedCursor st, ""⟩ }

/-- performOperation with OperationDelete: clamp the cursor, doc.Delete at
e.Cursor, SetText, build the message, MoveCursor(-1, 0), then send the
message when connected. -/
def performDelete (st : ClientState) : ClientState :=
  let st1 := { st with cursor := deleteClampedCursor st }
  let r := docDelete st1.doc st1.cursor
  let st2 := setText { st1 with doc := r.1 } r.2
  let st3 := moveCursor st2 (-1)
  send st3 (deleteMsgOf st)

/-- Decimal string parsing as used via strconv.Atoi (none on empty input,
a lone sign, or any non-digit character; the int-width range error of Go
is not modelled since integers are unbounded here). -/
def digitsVal : List Char → Nat → Option Nat
  | [], acc => some acc
  | c :: t, acc =>
      if '0' ≤ c ∧ c ≤ '9' then digitsVal t (acc * 10 + (c.toNat - '0'.toNat))
      else none

/-- strconv.Atoi, see digitsVal. -/
def atoi (s : String) : Option Int :=
  match s.toList with
  | [] => none
  | '-' :: t => if t = [] then none else (digitsVal t 0).map fun n => -(n : Int)
  | '+' :: t => if t = [] then none else (digitsVal t 0).map fun n => (n : Int)
  | l => (digitsVal l 0).map fun n => (n : Int)

/-- The remote insert branch of handleMsg's default case: doc.Insert at
the message's Position, SetText(Content(doc)), and when Position-1 <=
e.Cursor a MoveCursor by len(Value). -/
def remoteInsert (st : ClientState) (pos : Int) (v : String) : ClientState :=
  let r := docInsert st pos v
  let st2 := setText r.1 (content r.1.doc)
  if pos - 1 ≤ st2.cursor then moveCursor st2 (v.length : Int) else st2

/-- The remote delete branch of handleMsg's default case: doc.Delete at
the message's Position, SetText(Content(doc)), and when Position-1 <=
e.Cursor a MoveCursor by -len(Value). -/
def remoteDelete (st : ClientState) (pos : Int) (v : String) : ClientState :=
  let r := docDelete st.doc pos
  let st2 := setText { st with doc := r.1 } r.2
  if pos - 1 ≤ st2.cursor then moveCursor st2 (-(v.length : Int)) else st2

/-- handleMsg of src/client/engine.go: the switch on the message type,
with the default case dispatching on the wire operation's kind string. -/
def handleMsg (st : ClientState) (m : Message) : ClientState :=
  match m.msgType with
  | MsgType.docSync => setText { st with doc := m.document } (content m.document)
  | MsgType.docReq =>
      { st with outbox := st.outbox ++ [{ msgType := MsgType.docSync, document := st.doc }] }
  | MsgType.siteIDAssign => { st with siteID := (atoi m.text).getD 0 }
  | MsgType.join =>
      { st with statusMsgs := st.statusMsgs ++ [m.username ++ " has joined the session!"] }
  | MsgType.users => { st with users := m.text.splitOn "," }
  | MsgType.operation =>
      if m.operation.opType = "insert" then
        remoteInsert st m.operation.position m.operation.value
      else if m.operation.opType = "delete" then
        remoteDelete st m.operation.position m.operation.value
      else st

/-- True when some later node repeats an earlier node's identifier. -/
def hasDupIds : List CharacterNode → Bool
  | [] => false
  | n :: t => (t.any fun m => decide (m.identifier = n.identifier)) || hasDupIds t

/-- True when, for every site, the counters of that site's nodes are
strictly increasing in sequence order. -/
def countersOk : List CharacterNode → Bool
  | [] => true
  | n :: t =>
      (t.all fun m => decide (m.site ≠ n.site) || decide (n.counter < m.counter)) && countersOk t

/-- Modelled from the spec: the Persistence Codec's decode (crdt.Load is
not under the sources); the byte-level framing is abstracted to the parsed
candidate node list, and decode applies the validation the spec names:
duplicate identifiers or non-monotonic per-site counters fail with a
CorruptStateError (spec section 4.4). -/
def decode (bs : List CharacterNode) : Except String Document :=
  if hasDupIds bs then Except.error "corrupt state: duplicate identifiers"
  else if countersOk bs then Except.ok bs
  else Except.error "corrupt state: non-monotonic per-site counters"

/-- Largest counter any node of the given site carries (0 when none). -/
def maxSiteCounter (d : Document) (site : Int) : Int :=
  d.foldl (fun acc n => if n.site = site then max acc n.counter else acc) 0

/-- The KeyCtrlL branch of handleTermboxEvent with a file name present:
on a load error, log, push the failure status and return the error with
the document untouched; on success push the loading status, replace the
document, SetX(0), SetText(Content), and send a DocSync message
(WriteJSON unconditionally at this call site).  The per-site counter
resumes past the largest persisted counter, modelled from the spec's
design note on counters surviving restart. -/
def ctrlLoad (st : ClientState) (fn : String) (bs : List CharacterNode) :
    ClientState × Except String Unit :=
  match decode bs with
  | Except.error err =>
      ({ st with statusMsgs := st.statusMsgs ++ ["Failed to load " ++ fn] }, Except.error err)
  | Except.ok d =>
      ({ st with statusMsgs := st.statusMsgs ++ ["Loading " ++ fn],
                 doc := d,
                 localCounter := maxSiteCounter d st.siteID + 1,
                 cursor := 0,
                 text := content d,
                 outbox := st.outbox ++ [{ msgType := MsgType.docSync, document := d }] },
       Except.ok ())

/-
Concrete scenario states used by the claim theorems below.
-/

/-- Replica of site 1 after its first local insert of h (spec section 8
scenario). -/
def c1siteA1 : ClientState := performInsert (initState 1) 'h'

/-- Replica of site 1 after locally typing h then i. -/
def c1siteA2 : ClientState := performInsert c1siteA1 'i'

/-- Replica of site 2 after locally typing the exclamation mark on its own
empty copy. -/
def c1siteB1 : ClientState := performInsert (initState 2) '!'

/-- The first operation message site 1 emits. -/
def c1msgH : Message := { msgType := MsgType.operation, operation := ⟨"insert", 1, "h"⟩ }

/-- The second operation message site 1 emits. -/
def c1msgI : Message := { msgType := MsgType.operation, operation := ⟨"insert", 2, "i"⟩ }

/-- The operation message site 2 emits. -/
def c1msgBang : Message := { msgType := MsgType.operation, operation := ⟨"insert", 1, "!"⟩ }

/-- Site 1 after applying site 2's record through the remote-apply path. -/
def c1finalA : ClientState := handleMsg c1siteA2 c1msgBang

/-- Site 2 after applying site 1's records, in their FIFO order, through
the remote-apply path. -/
def c1finalB : ClientState := handleMsg (handleMsg c1siteB1 c1msgH) c1msgI

/-- A connected replica about to emit its first local insert. -/
def c2sender : ClientState := performInsert (initState 1) 'h'

/-- The message that local insert emits. -/
def c2msg : Message := { msgType := MsgType.operation, operation := ⟨"insert", 1, "h"⟩ }

/-- A receiving replica whose document holds a single character z under an
unrelated identifier. -/
def c2receiver : ClientState :=
  { initState 3 with doc := [⟨[(9, 9)], "z", 9, 1, false⟩], text := "z" }

/-- A replica whose document content is the single character a. -/
def c3start : ClientState := performInsert (initState 1) 'a'

/-- An insert operation record at position 1 with value b. -/
def c3msg : Message := { msgType := MsgType.operation, operation := ⟨"insert", 1, "b"⟩ }

/-- c3start after one remote application of c3msg. -/
def c3once : ClientState := handleMsg c3start c3msg

/-- c3start after two remote applications of c3msg. -/
def c3twice : ClientState := handleMsg c3once c3msg

/-- Operation record A, minted by site 1: insert x at position 1. -/
def c4msgX : Message := { msgType := MsgType.operation, operation := ⟨"insert", 1, "x"⟩ }

/-- Operation record B, minted by site 2: insert y at position 1. -/
def c4msgY : Message := { msgType := MsgType.operation, operation := ⟨"insert", 1, "y"⟩ }

/-- A fresh replica after remote-applying A then B. -/
def c4applyXY : ClientState := handleMsg (handleMsg (initState 3) c4msgX) c4msgY

/-- A fresh replica after remote-applying B then A. -/
def c4applyYX : ClientState := handleMsg (handleMsg (initState 3) c4msgY) c4msgX

/-- A persisted node list with two nodes sharing one identifier, which
decode-time validation must reject. -/
def c5badBytes : List CharacterNode :=
  [⟨[(1, 1)], "a", 1, 1, false⟩, ⟨[(1, 1)], "b", 1, 2, false⟩]

/-- A document whose only node is tombstoned, so its visible length is 0. -/
def c6doc : Document := [⟨[(1, 1)], "a", 1, 1, true⟩]

/-- A connected replica whose cursor lies beyond the visible length, so
that the next local insert fails with IndexOutOfRange. -/
def c7state : ClientState := { initState 1 with cursor := 5 }

/-- A replica whose site id has already been assigned to 5. -/
def c8state : ClientState := { initState 1 with siteID := 5 }

/-- A later site-assignment message carrying 7. -/
def c8msg : Message := { msgType := MsgType.siteIDAssign, text := "7" }

/-- A join message, which is not a site-assignment message. -/
def c8joinMsg : Message := { msgType := MsgType.join, username := "bob" }

/-- A sender replica whose clamped cursor is 1, so that its local delete
path builds a delete message at position 1. -/
def c9sender : ClientState := { initState 1 with cursor := 1 }

/-- A receiver replica displaying "ab" with its cursor at the end of the
text. -/
def c9receiver : ClientState :=
  { initState 2 with
      doc := [⟨[(1, 1)], "a", 1, 1, false⟩, ⟨[(2, 1)], "b", 1, 2, false⟩],
      text := "ab", cursor := 2 }

/-
Helper lemmas shared by the claim theorems.
-/

/-- docInsert never changes the site id. -/
theorem docInsert_fst_siteID (st : ClientState) (pos : Int) (v : String) :
    (docInsert st pos v).1.siteID = st.siteID := by
  unfold docInsert
  split <;> rfl

/-- The second component of docDelete is the content of the first. -/
theorem docDelete_snd (d : Document) (pos : Int) :
    (docDelete d pos).2 = content (docDelete d pos).1 := by
  unfold docDelete
  split <;> rfl

/-- send never changes the site id. -/
theorem send_siteID (st : ClientState) (m : Message) :
    (send st m).siteID = st.siteID := by
  unfold send
  split <;> rfl

/-- moveCursor never changes the site id. -/
theorem moveCursor_siteID (st : ClientState) (dx : Int) :
    (moveCursor st dx).siteID = st.siteID := rfl

/-- setText never changes the site id. -/
theorem setText_siteID (st : ClientState) (s : String) :
    (setText st s).siteID = st.siteID := rfl

/-- remoteInsert never changes the site id. -/
theorem remoteInsert_siteID (st : ClientState) (pos : Int) (v : String) :
    (remoteInsert st pos v).siteID = st.siteID := by
  simp only [remoteInsert]
  split <;> simp [moveCursor, setText, docInsert_fst_siteID]

/-- remoteDelete never changes the site id. -/
theorem remoteDelete_siteID (st : ClientState) (pos : Int) (v : String) :
    (remoteDelete st pos v).siteID = st.siteID := by
  simp only [remoteDelete]
  split <;> simp [moveCursor, setText]

/-
Claim theorems.
-/

/-- C1: two replicas start from the same empty Document; site 1 locally
types h then i, site 2 locally types an exclamation mark; they exchange
exactly the operation messages their local paths emitted and apply them in
FIFO order per site through the remote-apply path; yet site 1 ends with
content "!hi" and site 2 with "hi!", so Content() is not identical on both
sides and convergence fails. -/
theorem c1_replicas_diverge :
    c1siteA2.outbox = [c1msgH, c1msgI] ∧
    c1siteB1.outbox = [c1msgBang] ∧
    content c1finalA.doc = "!hi" ∧
    content c1finalB.doc = "hi!" ∧
    content c1finalA.doc ≠ content c1finalB.doc := by
  decide

/-- C2: the operation message a local insert emits carries the plain
visible index (the post-move cursor value 1), not the inserted character's
identifier, and the remote-apply path locates the insertion point by that
index: applied to a document holding the unrelated character z, the
message places h at visible index 0, giving content "hz", regardless of
any identifier. -/
theorem c2_wire_position_is_visible_index :
    c2sender.outbox = [c2msg] ∧
    c2msg.operation.position = c2sender.cursor ∧
    content (handleMsg c2receiver c2msg).doc = "hz" := by
  decide

/-- C3: applying the insert record at position 1 with value b once to a
document with content "a" yields "ba", while applying it twice yields
"bba"; the remote-apply path is not idempotent because the wire operation
carries no site/counter pair to deduplicate on. -/
theorem c3_remote_apply_not_idempotent :
    content c3once.doc = "ba" ∧
    content c3twice.doc = "bba" ∧
    content c3twice.doc ≠ content c3once.doc := by
  decide

/-- C4: the records insert-x-at-1 (minted by site 1) and insert-y-at-1
(minted by site 2), applied to the same fresh replica in the two orders,
yield contents "yx" and "xy"; the remote-apply path is order-dependent
because it addresses positions by visible index. -/
theorem c4_remote_apply_order_dependent :
    content c4applyXY.doc = "yx" ∧
    content c4applyYX.doc = "xy" ∧
    content c4applyXY.doc ≠ content c4applyYX.doc := by
  decide

/-- C5: when the persisted node list fails decode-time validation, the
Ctrl+L load handler returns the error to its caller and leaves the
in-memory document exactly as it was. -/
theorem c5_load_failure_preserves_doc (st : ClientState) (fn : String)
    (bs : List CharacterNode) (err : String) (h : decode bs = Except.error err) :
    (ctrlLoad st fn bs).1.doc = st.doc ∧ (ctrlLoad st fn bs).2 = Except.error err := by
  unfold ctrlLoad
  rw [h]
  exact ⟨rfl, rfl⟩

/-- C5 witness: a node list with a duplicated identifier fails validation,
and loading it leaves the prior document in place. -/
theorem c5_load_failure_preserves_doc_witness :
    decode c5badBytes = Except.error "corrupt state: duplicate identifiers" ∧
    (ctrlLoad (initState 1) "pairpad-content.txt" c5badBytes).1.doc = (initState 1).doc :=
  ⟨rfl, (c5_load_failure_preserves_doc (initState 1) "pairpad-content.txt" c5badBytes _ rfl).1⟩

/-- C6: on a document of visible length 0 every local delete fails with
IndexOutOfRange, and the engine-visible delete leaves Content()
unchanged. -/
theorem c6_delete_on_empty_fails (d : Document) (i : Int) (h : visibleLength d = 0) :
    localDelete d i = Except.error DocError.indexOutOfRange ∧
    content (docDelete d i).1 = content d := by
  have hd : ∀ j : Int, localDelete d j = Except.error DocError.indexOutOfRange := by
    intro j
    unfold localDelete
    rw [h, if_neg]
    omega
  refine ⟨hd i, ?_⟩
  unfold docDelete
  rw [hd (i - 1)]

/-- C6 witness: a document whose only node is tombstoned has visible
length 0, deleting fails with IndexOutOfRange, and content is unchanged. -/
theorem c6_delete_on_empty_fails_witness :
    visibleLength c6doc = 0 ∧
    localDelete c6doc 0 = Except.error DocError.indexOutOfRange ∧
    content (docDelete c6doc 0).1 = content c6doc :=
  ⟨by decide, (c6_delete_on_empty_fails c6doc 0 (by decide)).1,
    (c6_delete_on_empty_fails c6doc 0 (by decide)).2⟩

/-- C7 counterexample: at a connected state whose cursor lies beyond the
visible length, the local insert raises IndexOutOfRange, yet an operation
message is still emitted and no status notification is surfaced —
contradicting the claim that an erroring edit emits no message and
surfaces a status. -/
theorem c7_error_edit_counterexample :
    (docInsert c7state (c7state.cursor + 1) "x").2.2 = some DocError.indexOutOfRange ∧
    (performInsert c7state 'x').outbox ≠ [] ∧
    (performInsert c7state 'x').statusMsgs = [] := by
  decide

/-- C7 amended: on a local insert that raises IndexOutOfRange the document
is indeed left unchanged, but the error is only logged — the status list
does not change — and, when connected, the operation message is still
emitted. -/
theorem c7_failed_insert_still_emits (st : ClientState) (ch : Char)
    (h : ¬(0 ≤ st.cursor ∧ st.cursor ≤ (visibleLength st.doc : Int))) :
    (performInsert st ch).doc = st.doc ∧
    (performInsert st ch).statusMsgs = st.statusMsgs ∧
    (st.isConnected = true →
      (performInsert st ch).outbox = st.outbox ++ [insertMsgOf st ch]) := by
  have hins : localInsert st.doc st.cursor (String.mk [ch]) st.siteID st.localCounter
      = Except.error DocError.indexOutOfRange := by
    unfold localInsert
    rw [if_neg h]
  refine ⟨?_, ?_, fun hconn => ?_⟩
  · simp [performInsert, performInsertCore, docInsert, hins, setText, moveCursor, send]
    split <;> rfl
  · simp [performInsert, performInsertCore, docInsert, hins, setText, moveCursor, send]
    split <;> rfl
  · simp [performInsert, performInsertCore, docInsert, hins, setText, moveCursor, send, hconn]

/-- C7 amended witness: at the concrete erroring state the document and
status list are unchanged while the message is still emitted. -/
theorem c7_failed_insert_still_emits_witness :
    ¬(0 ≤ c7state.cursor ∧ c7state.cursor ≤ (visibleLength c7state.doc : Int)) ∧
    (performInsert c7state 'q').doc = c7state.doc ∧
    (performInsert c7state 'q').outbox = c7state.outbox ++ [insertMsgOf c7state 'q'] :=
  ⟨by decide, (c7_failed_insert_still_emits c7state 'q' (by decide)).1,
    (c7_failed_insert_still_emits c7state 'q' (by decide)).2.2 rfl⟩

/-- C8 counterexample: a replica whose site id was assigned 5 processes a
later site-assignment message carrying 7 and its site id changes to 7, so
the site id is not immutable against subsequent events. -/
theorem c8_site_id_overwritten :
    (handleMsg c8state c8msg).siteID = 7 ∧ c8state.siteID = 5 := by
  decide

/-- C8 amended: the site id equals whatever the last processed
site-assignment message carried; every message of any other kind, and
every local insert or delete, leaves the site id unchanged. -/
theorem c8_site_id_stable_otherwise :
    (∀ (st : ClientState) (m : Message), m.msgType ≠ MsgType.siteIDAssign →
      (handleMsg st m).siteID = st.siteID) ∧
    (∀ (st : ClientState) (ch : Char),
      (performInsert st ch).siteID = st.siteID ∧
      (performDelete st).siteID = st.siteID) := by
  constructor
  · intro st m hm
    unfold handleMsg
    cases hmt : m.msgType <;>
      simp_all [setText, remoteInsert_siteID, remoteDelete_siteID]
    split
    · exact remoteInsert_siteID ..
    split
    · exact remoteDelete_siteID ..
    · rfl
  · intro st ch
    constructor
    · simp [performInsert, performInsertCore, send_siteID, moveCursor, setText,
        docInsert_fst_siteID]
    · simp [performDelete, send_siteID, moveCursor, setText, docDelete]

/-- C8 amended witness: a join message leaves the assigned site id 5 in
place. -/
theorem c8_site_id_stable_otherwise_witness :
    c8joinMsg.msgType ≠ MsgType.siteIDAssign ∧
    (handleMsg c8state c8joinMsg).siteID = c8state.siteID :=
  ⟨by decide, c8_site_id_stable_otherwise.1 c8state c8joinMsg (by decide)⟩

/-- C9 counterexample: the delete message the local delete path builds at
position 1 carries an empty Value, yet a receiver whose cursor sits at the
end of "ab" ends with cursor 1 after processing it: the delete shrinks the
text to "b" and the zero-distance MoveCursor that follows clamps the
cursor down, so processing a remote delete produced by this client can
move the local cursor. -/
theorem c9_cursor_moves_counterexample :
    (deleteMsgOf c9sender).operation.value = "" ∧
    c9receiver.cursor = 2 ∧
    (handleMsg c9receiver (deleteMsgOf c9sender)).cursor = 1 := by
  decide

/-- C9 amended: every operation message the local delete path builds
carries the empty string in its Value field, so the remote handler's
explicit cursor adjustment by -len(Value) is zero: a replica whose cursor
is within the bounds of the text resulting from the delete keeps its
cursor exactly where it was when it processes such a message (a cursor
past the end of the shrunken text is instead clamped down, as the
counterexample shows). -/
theorem c9_delete_value_empty_cursor_unmoved :
    (∀ st : ClientState, (deleteMsgOf st).operation.value = "") ∧
    (∀ sender receiver : ClientState,
      0 ≤ receiver.cursor →
      receiver.cursor ≤
        ((content (docDelete receiver.doc (deleteMsgOf sender).operation.position).1).length : Int) →
      (handleMsg receiver (deleteMsgOf sender)).cursor = receiver.cursor) := by
  refine ⟨fun st => rfl, fun sender receiver h0 hle => ?_⟩
  simp only [deleteMsgOf] at hle ⊢
  simp only [handleMsg]
  show (remoteDelete receiver (deleteClampedCursor sender) "").cursor = receiver.cursor
  simp only [remoteDelete, setText]
  split
  · simp only [moveCursor, clampCursor, docDelete_snd]
    simp only [String.length_empty, Nat.cast_zero, neg_zero, add_zero]
    split
    · omega
    · split
      · omega
      · rfl
  · rfl

/-- C9 witness: the delete message a fresh replica builds has an empty
Value, and a second fresh replica's cursor stays at 0 when it processes
that message. -/
theorem c9_delete_value_empty_cursor_unmoved_witness :
    (deleteMsgOf (initState 1)).operation.value = "" ∧
    0 ≤ (initState 2).cursor ∧
    (handleMsg (initState 2) (deleteMsgOf (initState 1))).cursor = (initState 2).cursor :=
  ⟨c9_delete_value_empty_cursor_unmoved.1 (initState 1), by decide,
    c9_delete_value_empty_cursor_unmoved.2 (initState 1) (initState 2) (by decide) (by decide)⟩

/-- C10: with the cursor at 0 the delete branch clamps the cursor to 0,
still performs the document delete at position 0, builds a delete message
at position 0, and, when connected, still sends it. -/
theorem c10_delete_at_cursor_zero (st : ClientState) (h : st.cursor = 0) :
    deleteClampedCursor st = 0 ∧
    (performDelete st).doc = (docDelete st.doc 0).1 ∧
    (deleteMsgOf st).operation = ⟨"delete", 0, ""⟩ ∧
    (st.isConnected = true →
      (performDelete st).outbox = st.outbox ++ [deleteMsgOf st]) := by
  have hc : deleteClampedCursor st = 0 := by
    unfold deleteClampedCursor
    rw [h]
    decide
  refine ⟨hc, ?_, ?_, fun hconn => ?_⟩
  · simp [performDelete, hc, setText, moveCursor, send]
    split <;> rfl
  · simp [deleteMsgOf, hc]
  · simp [performDelete, deleteMsgOf, hc, setText, moveCursor, send, hconn]

/-- C10 witness: on a fresh connected replica (empty document, cursor 0)
the delete message at position 0 is still sent. -/
theorem c10_delete_at_cursor_zero_witness :
    (initState 1).cursor = 0 ∧
    (performDelete (initState 1)).doc = (docDelete (initState 1).doc 0).1 ∧
    (performDelete (initState 1)).outbox = (initState 1).outbox ++ [deleteMsgOf (initState 1)] :=
  ⟨rfl, (c10_delete_at_cursor_zero (initState 1) rfl).2.1,
    (c10_delete_at_cursor_zero (initState 1) rfl).2.2.2 rfl⟩

end Pairpad
